import Mathlib

/-
Verification of src/main/map_proc.c (FreeRADIUS map-processor registry and
evaluation lifecycle).

Shallow embedding conventions:
- C strings (processor names, expanded values) are modelled as lists of byte
  values (List Nat); NUL terminators are implicit, a list holds exactly the
  bytes up to the terminator.
- Opaque collaborator handles (module instance pointers, vp_tmpl_t, vp_map_t,
  REQUEST) are modelled as Nat identifiers; the core only passes them through.
- talloc allocation can fail; each allocation site gets an explicit Bool flag
  (true = allocation succeeds).  Writing through a NULL pointer returned by an
  unchecked allocation is modelled as a distinct crash outcome.
- The rbtree collaborator (out of scope per the spec, used through
  rbtree_create / rbtree_finddata / rbtree_insert_node / rbtree_deletebydata)
  is modelled as an ordered list of descriptors with the same comparator
  contract: finddata returns the first element comparing equal to the key,
  insert places by comparator order (RBTREE_FLAG_REPLACE replaces an equal
  node), deletebydata removes the node holding the given data.
- Descriptor identity (the talloc pointer of a map_proc_t node) is modelled by
  an explicit id field, so that replace-in-place versus reinsertion is
  observable.
-/

set_option maxRecDepth 4000

namespace MapProcSpec

/-- Opaque module-instance handle (void *mod_inst). -/
abbrev ModInst := Nat

/-- Opaque reference to a vp_tmpl_t source template. -/
abbrev Tmpl := Nat

/-- Opaque reference to the head of a vp_map_t mapping list. -/
abbrev Maps := Nat

/-- Opaque REQUEST handle. -/
abbrev Request := Nat

/-- An expanded source string (bytes). -/
abbrev Value := List Nat

/-- Opaque instance-data buffer contents (bytes). -/
abbrev Buffer := List Nat

/-- Opaque handle for an xlat escape callback (passed through to the
template-expansion collaborator, never called by this core). -/
abbrev XlatEscape := Nat

/-- rlm_rcode_t result codes. -/
inductive RlmRcode where
  | reject
  | fail
  | ok
  | handled
  | invalid
  | userlock
  | notfound
  | noop
  | updated
deriving DecidableEq, Repr

/-- map_proc_func_t: evaluate callback
(mod_inst, instance data, request, expanded value, maps) -> rcode. -/
abbrev MapProcFunc := ModInst → Option Buffer → Request → Value → Maps → RlmRcode

/-- map_proc_instantiate_t: instantiate callback
(instance data, mod_inst, src template, maps) -> int (negative = failure). -/
abbrev MapProcInstantiateT := Option Buffer → ModInst → Tmpl → Maps → Int

/-- Modelled from the spec: FR_MAX_STRING_LEN is the capacity of the name
buffer char name[FR_MAX_STRING_LEN]; its numeric value (254) comes from
libradius.h, which is not under src/.  The spec only requires the name to be a
bounded-length string; no claim depends on the particular value. -/
def FR_MAX_STRING_LEN : Nat := 254

/-- strlcpy(dst, src, size): copies at most size - 1 bytes of src and always
NUL-terminates.  The stored string is therefore src truncated to size - 1
bytes. -/
def strlcpy_bounded (src : List Nat) (size : Nat) : List Nat :=
  src.take (size - 1)

/-- struct map_proc (map_proc.c lines 37-47).  The id field models the talloc
pointer identity of the node; the C struct carries no such field, but node
identity is observable through pointers and is what claim-level statements
about replace-in-place refer to. -/
structure MapProc where
  id : Nat
  mod_inst : ModInst
  name : List Nat
  length : Nat
  evaluate : MapProcFunc
  instantiate : Option MapProcInstantiateT
  escape : Option XlatEscape
  inst_size : Nat

/-- The part of a map_proc_t read by the comparator: the name buffer and the
cached length (a stack-allocated lookup key only fills these two fields). -/
structure MapKey where
  name : List Nat
  length : Nat
deriving DecidableEq, Repr

/-- Key of a stored descriptor. -/
def map_proc_key (p : MapProc) : MapKey :=
  { name := p.name, length := p.length }

/-- Building a lookup key the way map_proc_find / _map_proc_unregister do:
strlcpy into a FR_MAX_STRING_LEN buffer, then length = strlen. -/
def mkKey (name : List Nat) : MapKey :=
  { name := strlcpy_bounded name FR_MAX_STRING_LEN,
    length := (strlcpy_bounded name FR_MAX_STRING_LEN).length }

/-- memcmp over the first n bytes of two buffers (sign of the first
difference, 0 if the compared prefixes agree).  Every call site in the model
compares buffers holding at least n bytes. -/
def memcmp : List Nat → List Nat → Nat → Int
  | _, _, 0 => 0
  | x :: a, y :: b, Nat.succ n => if x = y then memcmp a b n else (x : Int) - (y : Int)
  | _, _, Nat.succ _ => 0

/-- map_proc_cmp (map_proc.c lines 64-72): compare by cached length first;
only if the lengths are equal, memcmp the name bytes. -/
def map_proc_cmp (a b : MapKey) : Int :=
  if a.length ≠ b.length then (a.length : Int) - (b.length : Int)
  else memcmp a.name b.name a.length

/-- rbtree_finddata: first element of the tree comparing equal to the key
under map_proc_cmp. -/
def rbtree_finddata (l : List MapProc) (k : MapKey) : Option MapProc :=
  l.find? (fun p => decide (map_proc_cmp k (map_proc_key p) = 0))

/-- rbtree insertion by comparator order; an equal node is replaced
(RBTREE_FLAG_REPLACE). -/
def rbtree_insert (l : List MapProc) (p : MapProc) : List MapProc :=
  match l with
  | [] => [p]
  | q :: rest =>
    let c := map_proc_cmp (map_proc_key p) (map_proc_key q)
    if c < 0 then p :: q :: rest
    else if c = 0 then p :: rest
    else q :: rbtree_insert rest p

/-- rbtree_deletebydata: removes the node holding the given data (located via
the comparator). -/
def rbtree_deletebydata (l : List MapProc) (data : MapProc) : List MapProc :=
  l.eraseP (fun p => decide (map_proc_cmp (map_proc_key data) (map_proc_key p) = 0))

/-- The process-wide registry state: map_proc_root (none = the tree was never
created) plus a supply of fresh node identities. -/
structure RegState where
  root : Option (List MapProc)
  nextId : Nat

/-- Outcome of a register call: returned 0, returned -1, or dereferenced a
NULL pointer (abrupt termination, never a return value). -/
inductive RegRet where
  | ok
  | err
  | crash
deriving DecidableEq, Repr

/-- Result of map_proc_register: outcome plus the registry state afterwards. -/
structure RegResult where
  ret : RegRet
  st : RegState

/-- Success/failure of the three allocation sites a register call can hit:
rbtree_create, talloc_zero of the descriptor, node allocation inside
rbtree_insert_node. -/
structure AllocPlan where
  tree_ok : Bool
  proc_ok : Bool
  node_ok : Bool
deriving DecidableEq, Repr

/-- map_proc_find (map_proc.c lines 101-111): NULL if the tree was never
created, otherwise finddata with a truncated stack key. -/
def map_proc_find (st : RegState) (name : List Nat) : Option MapProc :=
  match st.root with
  | none => none
  | some l => rbtree_finddata l (mkKey name)

/-- The in-place field update register performs (map_proc.c lines 171-175). -/
def map_proc_update (mi : ModInst) (ev : MapProcFunc) (esc : Option XlatEscape)
    (ins : Option MapProcInstantiateT) (sz : Nat) (p : MapProc) : MapProc :=
  { p with mod_inst := mi, evaluate := ev, escape := esc,
           instantiate := ins, inst_size := sz }

/-- Body of map_proc_register once the tree exists (map_proc.c lines 149-177).
If the name is found, the existing node's fields are updated in place.
Otherwise a descriptor is allocated (talloc_zero; an unchecked NULL here is
written through by strlcpy, modelled as crash), its name strlcpy-truncated,
and the node inserted; insertion failure frees the descriptor and returns -1.
The common field assignments of lines 171-175 run before the return and do not
affect the node's position, so for a fresh node they are folded into its
construction. -/
def map_proc_register_tree (alloc : AllocPlan) (l : List MapProc) (nextId : Nat)
    (mi : ModInst) (name : List Nat) (ev : MapProcFunc) (esc : Option XlatEscape)
    (ins : Option MapProcInstantiateT) (sz : Nat) : RegRet × List MapProc × Nat :=
  let k := mkKey name
  match rbtree_finddata l k with
  | some proc =>
    (RegRet.ok, l.map (fun q => if q.id = proc.id then map_proc_update mi ev esc ins sz q else q),
     nextId)
  | none =>
    if alloc.proc_ok then
      let proc : MapProc :=
        { id := nextId, mod_inst := mi, name := k.name, length := k.length,
          evaluate := ev, instantiate := ins, escape := esc, inst_size := sz }
      if alloc.node_ok then (RegRet.ok, rbtree_insert l proc, nextId + 1)
      else (RegRet.err, l, nextId)
    else (RegRet.crash, l, nextId)

/-- map_proc_register (map_proc.c lines 132-178).

The guard on an empty name is rad_assert(name && name[0]) at line 139.
Modelled from the spec: rad_assert comes from rad_assert.h, which is not under
src/; the spec states that register "fails if name is empty", so the failed
assertion is modelled as a failure return leaving the registry unchanged.

Lazy tree creation: if map_proc_root is NULL it is created first; creation
failure returns -1. -/
def map_proc_register (alloc : AllocPlan) (st : RegState) (mi : ModInst)
    (name : List Nat) (ev : MapProcFunc) (esc : Option XlatEscape)
    (ins : Option MapProcInstantiateT) (sz : Nat) : RegResult :=
  if name = [] then { ret := RegRet.err, st := st }
  else
    match st.root with
    | none =>
      if alloc.tree_ok then
        let r := map_proc_register_tree alloc [] st.nextId mi name ev esc ins sz
        { ret := r.1, st := { root := some r.2.1, nextId := r.2.2 } }
      else { ret := RegRet.err, st := st }
    | some l =>
      let r := map_proc_register_tree alloc l st.nextId mi name ev esc ins sz
      { ret := r.1, st := { root := some r.2.1, nextId := r.2.2 } }

/-- _map_proc_unregister (map_proc.c lines 78-92), the talloc destructor of a
descriptor: re-derive a lookup key from the descriptor's own name (strlcpy
into a fresh stack key), find the matching node; if none, return 0 as a no-op;
otherwise deletebydata the found node and return 0. -/
def _map_proc_unregister (l : List MapProc) (proc : MapProc) : List MapProc × Int :=
  match rbtree_finddata l (mkKey proc.name) with
  | none => (l, 0)
  | some found => (rbtree_deletebydata l found, 0)

/-- struct map_proc_inst (map_proc.c lines 51-56).  data = none models a NULL
instance-data pointer. -/
structure MapProcInst where
  proc : MapProc
  src : Tmpl
  maps : Maps
  data : Option Buffer

/-- Outcome of map_proc_instantiate: the returned pointer (none = NULL),
whether the call crashed on a NULL dereference, and the talloc chunks left
attached to the caller-supplied ctx when the call returns (the instance is
allocated in ctx; its buffer is a child of the instance). -/
structure InstResult where
  ret : Option MapProcInst
  crashed : Bool
  ctx : List MapProcInst

/-- map_proc_instantiate (map_proc.c lines 192-215).
inst = talloc_zero(ctx, ...) is unchecked: if that allocation fails the
immediately following field writes dereference NULL (crash).  Otherwise the
zeroed instance (data = NULL) records proc/src/maps.  Only when the descriptor
has an instantiate callback: if inst_size > 0 a zero-initialized buffer of
inst_size bytes is allocated as a child of the instance (failure returns NULL
without detaching the instance from ctx); then the callback runs and a
negative return frees the instance (and its buffer) and returns NULL. -/
def map_proc_instantiate (inst_ok buf_ok : Bool) (proc : MapProc)
    (src : Tmpl) (maps : Maps) : InstResult :=
  if inst_ok = false then { ret := none, crashed := true, ctx := [] }
  else
    let inst0 : MapProcInst := { proc := proc, src := src, maps := maps, data := none }
    match proc.instantiate with
    | none => { ret := some inst0, crashed := false, ctx := [inst0] }
    | some hook =>
      if proc.inst_size > 0 then
        if buf_ok = false then
          { ret := none, crashed := false, ctx := [inst0] }
        else
          let inst1 : MapProcInst := { inst0 with data := some (List.replicate proc.inst_size 0) }
          if hook inst1.data proc.mod_inst src maps < 0 then
            { ret := none, crashed := false, ctx := [] }
          else
            { ret := some inst1, crashed := false, ctx := [inst1] }
      else
        if hook none proc.mod_inst src maps < 0 then
          { ret := none, crashed := false, ctx := [] }
        else
          { ret := some inst0, crashed := false, ctx := [inst0] }

/-- The template-expansion collaborator tmpl_aexpand, as called at
map_proc.c line 230: it receives the request, the source template, the
descriptor's escape callback and the descriptor's mod_inst, and either
produces an expanded string or fails (none). -/
abbrev TmplAExpand := Request → Tmpl → Option XlatEscape → ModInst → Option Value

/-- One invocation of the evaluate callback, with the arguments it received
(map_proc.c line 234). -/
structure EvalCall where
  mod_inst : ModInst
  data : Option Buffer
  request : Request
  value : Value
  maps : Maps
deriving DecidableEq, Repr

/-- map_proc (map_proc.c lines 225-238): expand the instance's source template;
on failure return RLM_MODULE_FAIL without calling the evaluate callback;
otherwise call the callback once and return its rcode unchanged (the transient
expanded string is freed either way).  The second component is the trace of
evaluate-callback invocations made during the call. -/
def map_proc (aexpand : TmplAExpand) (request : Request) (inst : MapProcInst) :
    RlmRcode × List EvalCall :=
  match aexpand request inst.src inst.proc.escape inst.proc.mod_inst with
  | none => (RlmRcode.fail, [])
  | some value =>
    (inst.proc.evaluate inst.proc.mod_inst inst.data request value inst.maps,
     [{ mod_inst := inst.proc.mod_inst, data := inst.data, request := request,
        value := value, maps := inst.maps }])

/- Helper lemmas about the comparator. -/

lemma memcmp_self (a : List Nat) (n : Nat) : memcmp a a n = 0 := by
  induction a generalizing n with
  | nil => cases n <;> rfl
  | cons x a ih =>
    cases n with
    | zero => rfl
    | succ n => simp [memcmp, ih]

lemma memcmp_eq_zero_iff (a b : List Nat) (n : Nat)
    (ha : a.length = n) (hb : b.length = n) : memcmp a b n = 0 ↔ a = b := by
  induction n generalizing a b with
  | zero =>
    rw [List.length_eq_zero] at ha hb
    subst ha; subst hb
    simp [memcmp]
  | succ n ih =>
    cases a with
    | nil => simp at ha
    | cons x a =>
      cases b with
      | nil => simp at hb
      | cons y b =>
        simp only [List.length_cons, Nat.succ.injEq] at ha hb
        by_cases hxy : x = y
        · subst hxy
          simp [memcmp, ih a b ha hb]
        · simp only [memcmp, if_neg hxy, List.cons.injEq]
          rw [sub_eq_zero]
          simp [Nat.cast_inj, hxy]

lemma map_proc_cmp_eq_zero_iff :
    ∀ (a b : MapKey), a.name.length = a.length → b.name.length = b.length →
    (map_proc_cmp a b = 0 ↔ a = b)
  | ⟨an, al⟩, ⟨bn, bl⟩, ha, hb => by
    simp only at ha hb
    unfold map_proc_cmp
    by_cases h : al = bl
    · subst h
      rw [if_neg (by simp)]
      simp only
      rw [memcmp_eq_zero_iff an bn al ha hb]
      simp [MapKey.mk.injEq]
    · rw [if_pos (by simpa using h)]
      simp only [MapKey.mk.injEq]
      constructor
      · intro hz
        exact absurd (by exact_mod_cast sub_eq_zero.mp hz) h
      · rintro ⟨h1, h2⟩
        exact absurd h2 h

lemma mkKey_truthful (n : List Nat) : (mkKey n).name.length = (mkKey n).length := rfl

/-- C3: for every instance, if expansion of the instance's source template
against the request context fails, map_proc returns RLM_MODULE_FAIL and the
descriptor's evaluate callback is invoked exactly zero times. -/
theorem map_proc_fail_on_expansion_failure (aexpand : TmplAExpand) (request : Request)
    (inst : MapProcInst)
    (h : aexpand request inst.src inst.proc.escape inst.proc.mod_inst = none) :
    map_proc aexpand request inst = (RlmRcode.fail, []) := by
  unfold map_proc
  rw [h]

/-- Witness for C3 at a concrete failing expansion. -/
theorem map_proc_fail_on_expansion_failure_witness :
    map_proc (fun _ _ _ _ => none) 7
      { proc := { id := 0, mod_inst := 3, name := [97], length := 1,
                  evaluate := fun _ _ _ _ _ => RlmRcode.ok,
                  instantiate := none, escape := none, inst_size := 0 },
        src := 5, maps := 9, data := none } = (RlmRcode.fail, []) :=
  map_proc_fail_on_expansion_failure _ _ _ rfl

/-- C4: if template expansion succeeds, map_proc invokes the descriptor's
evaluate callback exactly once, with (owner, instance buffer, request,
expanded string, mapping list), and returns the callback's result code
unmodified. -/
theorem map_proc_calls_evaluate_once (aexpand : TmplAExpand) (request : Request)
    (inst : MapProcInst) (v : Value)
    (h : aexpand request inst.src inst.proc.escape inst.proc.mod_inst = some v) :
    map_proc aexpand request inst =
      (inst.proc.evaluate inst.proc.mod_inst inst.data request v inst.maps,
       [{ mod_inst := inst.proc.mod_inst, data := inst.data, request := request,
          value := v, maps := inst.maps }]) := by
  unfold map_proc
  rw [h]

/-- Witness for C4: a concrete callback that inspects its expanded-string
argument; its rcode comes back unmodified and the trace holds exactly one
call with the expected arguments. -/
theorem map_proc_calls_evaluate_once_witness :
    map_proc (fun _ _ _ _ => some [83, 81]) 7
      { proc := { id := 0, mod_inst := 3, name := [97], length := 1,
                  evaluate := fun _ _ _ v _ =>
                    if v = [83, 81] then RlmRcode.updated else RlmRcode.ok,
                  instantiate := none, escape := some 11, inst_size := 0 },
        src := 5, maps := 9, data := some [0, 0] } =
      (RlmRcode.updated,
       [{ mod_inst := 3, data := some [0, 0], request := 7,
          value := [83, 81], maps := 9 }]) :=
  map_proc_calls_evaluate_once _ 7 _ [83, 81] rfl

/-- C7: a register call with an empty name returns a failure result and
leaves the registry unchanged (no entry is registered, the process does not
terminate).  The empty-name guard is modelled from the spec, see
map_proc_register. -/
theorem map_proc_register_empty_name_fails (alloc : AllocPlan) (st : RegState)
    (mi : ModInst) (ev : MapProcFunc) (esc : Option XlatEscape)
    (ins : Option MapProcInstantiateT) (sz : Nat) :
    map_proc_register alloc st mi [] ev esc ins sz = { ret := RegRet.err, st := st } := rfl

/- Concrete registration scenario for the ordering claim: register the names
sql and sqlite (byte values of the ASCII strings) into a fresh registry. -/

def c5sql : List Nat := [115, 113, 108]

def c5sqlite : List Nat := [115, 113, 108, 105, 116, 101]

def c5ev : MapProcFunc := fun _ _ _ _ _ => RlmRcode.ok

def c5st1 : RegResult :=
  map_proc_register { tree_ok := true, proc_ok := true, node_ok := true }
    { root := none, nextId := 0 } 1 c5sql c5ev none none 0

def c5st2 : RegResult :=
  map_proc_register { tree_ok := true, proc_ok := true, node_ok := true }
    c5st1.st 2 c5sqlite c5ev none none 0

/-- C5: the comparator orders by name length first (two keys of different
lengths never compare equal, even when one name is a byte-prefix of the
other); the byte-wise comparison runs only when the lengths are equal; and
registering sql and then sqlite yields two independent, separately findable
entries. -/
theorem map_proc_cmp_length_first_prefix_distinct (a b : MapKey)
    (h : a.length ≠ b.length) :
    (map_proc_cmp a b = (a.length : Int) - (b.length : Int) ∧ map_proc_cmp a b ≠ 0) ∧
    (∀ c d : MapKey, c.length = d.length →
       map_proc_cmp c d = memcmp c.name d.name c.length) ∧
    (c5st1.ret = RegRet.ok ∧ c5st2.ret = RegRet.ok ∧
     (map_proc_find c5st2.st c5sql).map map_proc_key = some { name := c5sql, length := 3 } ∧
     (map_proc_find c5st2.st c5sqlite).map map_proc_key = some { name := c5sqlite, length := 6 } ∧
     (map_proc_find c5st2.st c5sql).map MapProc.id = some 0 ∧
     (map_proc_find c5st2.st c5sqlite).map MapProc.id = some 1) := by
  have hne : map_proc_cmp a b = (a.length : Int) - (b.length : Int) := by
    unfold map_proc_cmp
    rw [if_pos h]
  refine ⟨⟨hne, ?_⟩, ?_, ?_⟩
  · rw [hne]
    intro hz
    exact h (by exact_mod_cast sub_eq_zero.mp hz)
  · intro c d hcd
    unfold map_proc_cmp
    rw [if_neg (by simp [hcd])]
  · exact ⟨by decide, by decide, by decide, by decide, by decide, by decide⟩

/-- Witness for C5 at the concrete prefix pair sql / sqlite. -/
theorem map_proc_cmp_length_first_prefix_distinct_witness :
    map_proc_cmp { name := c5sql, length := 3 } { name := c5sqlite, length := 6 } ≠ 0 :=
  (map_proc_cmp_length_first_prefix_distinct
    { name := c5sql, length := 3 } { name := c5sqlite, length := 6 } (by decide)).1.2

/-- C10: register and find silently truncate names to FR_MAX_STRING_LEN - 1
bytes.  For any two names agreeing on their first FR_MAX_STRING_LEN - 1
bytes, registering the first into a fresh registry and then looking up the
second returns the very same descriptor, whose stored name and cached length
are those of the truncated string. -/
theorem map_proc_register_find_truncate (name1 name2 : List Nat)
    (h1 : name1 ≠ [])
    (h : name1.take (FR_MAX_STRING_LEN - 1) = name2.take (FR_MAX_STRING_LEN - 1))
    (mi : ModInst) (ev : MapProcFunc) (esc : Option XlatEscape)
    (ins : Option MapProcInstantiateT) (sz : Nat) :
    mkKey name1 = mkKey name2 ∧
    (map_proc_register { tree_ok := true, proc_ok := true, node_ok := true }
       { root := none, nextId := 0 } mi name1 ev esc ins sz).ret = RegRet.ok ∧
    (∃ p : MapProc,
      map_proc_find (map_proc_register { tree_ok := true, proc_ok := true, node_ok := true }
        { root := none, nextId := 0 } mi name1 ev esc ins sz).st name2 = some p ∧
      map_proc_find (map_proc_register { tree_ok := true, proc_ok := true, node_ok := true }
        { root := none, nextId := 0 } mi name1 ev esc ins sz).st name1 = some p ∧
      p.name = name1.take (FR_MAX_STRING_LEN - 1) ∧
      p.length = (name1.take (FR_MAX_STRING_LEN - 1)).length) := by
  have hk : mkKey name1 = mkKey name2 := by
    simp only [mkKey, strlcpy_bounded, h]
  have hreg : map_proc_register { tree_ok := true, proc_ok := true, node_ok := true }
      { root := none, nextId := 0 } mi name1 ev esc ins sz =
      { ret := RegRet.ok,
        st := { root := some [{ id := 0, mod_inst := mi, name := (mkKey name1).name,
                                length := (mkKey name1).length, evaluate := ev,
                                instantiate := ins, escape := esc, inst_size := sz }],
                nextId := 1 } } := by
    unfold map_proc_register
    rw [if_neg h1]
    rfl
  have hcmp : map_proc_cmp (mkKey name1) (mkKey name1) = 0 := by
    unfold map_proc_cmp
    rw [if_neg (by simp)]
    exact memcmp_self _ _
  refine ⟨hk, ?_, ?_⟩
  · rw [hreg]
  · refine ⟨{ id := 0, mod_inst := mi, name := (mkKey name1).name,
              length := (mkKey name1).length, evaluate := ev,
              instantiate := ins, escape := esc, inst_size := sz }, ?_, ?_, rfl, rfl⟩
    · rw [hreg]
      show rbtree_finddata _ (mkKey name2) = _
      rw [← hk]
      exact List.find?_cons_of_pos _ (decide_eq_true hcmp)
    · rw [hreg]
      show rbtree_finddata _ (mkKey name1) = _
      exact List.find?_cons_of_pos _ (decide_eq_true hcmp)

/-- Witness for C10: two names longer than the buffer capacity, agreeing on
their first FR_MAX_STRING_LEN - 1 bytes but differing at the byte the buffer
cannot hold.  Registering under the first and finding with the second hits
the same (truncated) descriptor. -/
theorem map_proc_register_find_truncate_witness :
    ∃ p : MapProc,
      map_proc_find (map_proc_register { tree_ok := true, proc_ok := true, node_ok := true }
        { root := none, nextId := 0 } 1 (List.replicate 254 65) c5ev none none 0).st
        (List.replicate 253 65 ++ [66]) = some p ∧
      map_proc_find (map_proc_register { tree_ok := true, proc_ok := true, node_ok := true }
        { root := none, nextId := 0 } 1 (List.replicate 254 65) c5ev none none 0).st
        (List.replicate 254 65) = some p ∧
      p.name = (List.replicate 254 65).take (FR_MAX_STRING_LEN - 1) ∧
      p.length = ((List.replicate 254 65).take (FR_MAX_STRING_LEN - 1)).length :=
  (map_proc_register_find_truncate (List.replicate 254 65) (List.replicate 253 65 ++ [66])
    (by decide) (by decide) 1 c5ev none none 0).2.2

/- Concrete descriptors for the instantiation claims. -/

def c1proc : MapProc :=
  { id := 0, mod_inst := 1, name := [97], length := 1,
    evaluate := fun _ _ _ _ _ => RlmRcode.ok,
    instantiate := none, escape := none, inst_size := 4 }

def c1hook : MapProcInstantiateT := fun _ _ _ _ => 0

def c1procHook : MapProc :=
  { id := 0, mod_inst := 1, name := [98], length := 1,
    evaluate := fun _ _ _ _ _ => RlmRcode.ok,
    instantiate := some c1hook, escape := none, inst_size := 2 }

/-- C1 counterexample: a descriptor with instance_size 4 but no instantiate
callback.  Instantiation succeeds (all allocations fine), yet the returned
instance's data pointer is NULL: no 4-byte zero-initialized buffer was
allocated, because the allocation sits inside the if (proc->instantiate)
branch (map_proc.c lines 202-206). -/
theorem map_proc_instantiate_no_buffer_without_hook_cex :
    c1proc.inst_size = 4 ∧ c1proc.instantiate = none ∧
    (map_proc_instantiate true true c1proc 5 9).ret.map MapProcInst.data = some none ∧
    some (none : Option Buffer) ≠ some (some (List.replicate 4 0)) :=
  ⟨rfl, rfl, rfl, by decide⟩

/-- C1 amended: the opaque buffer is allocated only when the descriptor has an
instantiate callback.  With allocations succeeding: if the callback is present,
instance_size > 0 and the callback succeeds, the returned instance owns a
zero-initialized buffer of exactly instance_size bytes; if the callback is
absent, or instance_size = 0 (callback succeeding), the instance's data
pointer stays null. -/
theorem map_proc_instantiate_buffer_iff_hook (proc : MapProc) (src : Tmpl) (maps : Maps) :
    (proc.instantiate = none →
      (map_proc_instantiate true true proc src maps).ret =
        some { proc := proc, src := src, maps := maps, data := none }) ∧
    (∀ hook, proc.instantiate = some hook → 0 < proc.inst_size →
      0 ≤ hook (some (List.replicate proc.inst_size 0)) proc.mod_inst src maps →
      (map_proc_instantiate true true proc src maps).ret =
        some { proc := proc, src := src, maps := maps,
               data := some (List.replicate proc.inst_size 0) }) ∧
    (∀ hook, proc.instantiate = some hook → proc.inst_size = 0 →
      0 ≤ hook none proc.mod_inst src maps →
      (map_proc_instantiate true true proc src maps).ret =
        some { proc := proc, src := src, maps := maps, data := none }) := by
  refine ⟨?_, ?_, ?_⟩
  · intro hnone
    simp [map_proc_instantiate, hnone]
  · intro hook hh hsz hok
    simp [map_proc_instantiate, hh, hsz, not_lt.mpr hok]
  · intro hook hh hsz hok
    simp [map_proc_instantiate, hh, hsz, not_lt.mpr hok]

/-- Witness for the amended C1: a present, succeeding instantiate callback
with instance_size 2 yields an instance owning a 2-byte zero buffer. -/
theorem map_proc_instantiate_buffer_iff_hook_witness :
    (map_proc_instantiate true true c1procHook 5 9).ret =
      some { proc := c1procHook, src := 5, maps := 9, data := some (List.replicate 2 0) } :=
  (map_proc_instantiate_buffer_iff_hook c1procHook 5 9).2.1 c1hook rfl (by decide) (by decide)

def c2hook : MapProcInstantiateT := fun _ _ _ _ => 0

def c2proc : MapProc :=
  { id := 0, mod_inst := 1, name := [99], length := 1,
    evaluate := fun _ _ _ _ _ => RlmRcode.ok,
    instantiate := some c2hook, escape := none, inst_size := 1 }

def c2failHook : MapProcInstantiateT := fun _ _ _ _ => -1

def c2failProc : MapProc :=
  { id := 0, mod_inst := 1, name := [100], length := 1,
    evaluate := fun _ _ _ _ _ => RlmRcode.ok,
    instantiate := some c2failHook, escape := none, inst_size := 1 }

/-- C2 counterexample: the opaque-buffer allocation fails for a descriptor
with an instantiate callback and instance_size 1.  Construction fails (NULL
returned, no crash), yet the partially built instance (data = NULL) is still
attached to the caller-supplied allocation scope: the early return at
map_proc.c line 205 does not talloc_free(inst). -/
theorem map_proc_instantiate_not_atomic_cex :
    (map_proc_instantiate true false c2proc 5 9).ret = none ∧
    (map_proc_instantiate true false c2proc 5 9).crashed = false ∧
    (map_proc_instantiate true false c2proc 5 9).ctx.length = 1 ∧
    (map_proc_instantiate true false c2proc 5 9).ctx.map MapProcInst.data = [none] :=
  ⟨rfl, rfl, rfl, rfl⟩

/-- C2 amended: a failing instantiate hook unwinds completely (the instance
and its buffer are freed; nothing stays attached to the caller scope), but a
failing opaque-buffer allocation only returns NULL: the partially constructed,
bufferless instance remains attached to the caller-supplied scope. -/
theorem map_proc_instantiate_hook_failure_unwinds (proc : MapProc) (src : Tmpl)
    (maps : Maps) (hook : MapProcInstantiateT) (hh : proc.instantiate = some hook) :
    (0 < proc.inst_size →
      hook (some (List.replicate proc.inst_size 0)) proc.mod_inst src maps < 0 →
      map_proc_instantiate true true proc src maps =
        { ret := none, crashed := false, ctx := [] }) ∧
    (proc.inst_size = 0 →
      hook none proc.mod_inst src maps < 0 →
      map_proc_instantiate true true proc src maps =
        { ret := none, crashed := false, ctx := [] }) ∧
    (0 < proc.inst_size →
      map_proc_instantiate true false proc src maps =
        { ret := none, crashed := false,
          ctx := [{ proc := proc, src := src, maps := maps, data := none }] }) := by
  refine ⟨?_, ?_, ?_⟩
  · intro hsz hfail
    simp [map_proc_instantiate, hh, hsz, hfail]
  · intro hsz hfail
    simp [map_proc_instantiate, hh, hsz, hfail]
  · intro hsz
    simp [map_proc_instantiate, hh, hsz]

/-- Witness for the amended C2: a failing hook leaves nothing attached; a
failing buffer allocation leaves the bufferless instance attached. -/
theorem map_proc_instantiate_hook_failure_unwinds_witness :
    map_proc_instantiate true true c2failProc 5 9 =
      { ret := none, crashed := false, ctx := [] } ∧
    map_proc_instantiate true false c2proc 5 9 =
      { ret := none, crashed := false,
        ctx := [{ proc := c2proc, src := 5, maps := 9, data := none }] } :=
  ⟨(map_proc_instantiate_hook_failure_unwinds c2failProc 5 9 c2failHook rfl).1
      (by decide) (by decide),
   (map_proc_instantiate_hook_failure_unwinds c2proc 5 9 c2hook rfl).2.2 (by decide)⟩

def c8ev : MapProcFunc := fun _ _ _ _ _ => RlmRcode.ok

def c8proc : MapProc :=
  { id := 0, mod_inst := 1, name := [101], length := 1,
    evaluate := c8ev, instantiate := some (fun _ _ _ _ => 0),
    escape := none, inst_size := 1 }

/-- C8 counterexample: with the registry tree present and the name fresh, a
failing descriptor allocation (talloc_zero at map_proc.c line 156) is never
checked: the following strlcpy writes through the NULL pointer, an abrupt
termination instead of a -1 return.  The unchecked instance allocation at
line 197 crashes the same way. -/
theorem map_proc_alloc_failure_crash_cex :
    (map_proc_register { tree_ok := true, proc_ok := false, node_ok := true }
       { root := none, nextId := 0 } 1 [97] c8ev none none 0).ret = RegRet.crash ∧
    RegRet.crash ≠ RegRet.err ∧
    (map_proc_instantiate false true c8proc 5 9).crashed = true :=
  ⟨rfl, by decide, rfl⟩

/-- C8 amended: tree-creation failure, node-insertion failure and
opaque-buffer allocation failure are reported to the caller as failure
results, but the descriptor allocation in register and the instance
allocation in instantiate are unchecked: a failure there is a NULL-pointer
dereference (abrupt termination), not a failure result. -/
theorem map_proc_alloc_failure_reporting (st : RegState) (mi : ModInst)
    (name : List Nat) (ev : MapProcFunc) (esc : Option XlatEscape)
    (ins : Option MapProcInstantiateT) (sz : Nat) (proc : MapProc)
    (src : Tmpl) (maps : Maps) (hname : name ≠ []) :
    (st.root = none →
      ∀ pok nok, map_proc_register { tree_ok := false, proc_ok := pok, node_ok := nok }
          st mi name ev esc ins sz = { ret := RegRet.err, st := st }) ∧
    (∀ l, st.root = some l → rbtree_finddata l (mkKey name) = none →
      map_proc_register { tree_ok := true, proc_ok := true, node_ok := false }
          st mi name ev esc ins sz =
        { ret := RegRet.err, st := { root := some l, nextId := st.nextId } }) ∧
    (proc.instantiate.isSome = true → 0 < proc.inst_size →
      (map_proc_instantiate true false proc src maps).ret = none ∧
      (map_proc_instantiate true false proc src maps).crashed = false) ∧
    (∀ l, st.root = some l → rbtree_finddata l (mkKey name) = none →
      (map_proc_register { tree_ok := true, proc_ok := false, node_ok := true }
          st mi name ev esc ins sz).ret = RegRet.crash) ∧
    (map_proc_instantiate false true proc src maps).crashed = true := by
  refine ⟨?_, ?_, ?_, ?_, ?_⟩
  · intro hroot pok nok
    unfold map_proc_register
    rw [if_neg hname]
    simp only [hroot]
    rfl
  · intro l hroot hfresh
    unfold map_proc_register
    rw [if_neg hname]
    simp only [hroot]
    unfold map_proc_register_tree
    simp only [hfresh]
    rfl
  · intro hsome hsz
    match hhook : proc.instantiate with
    | none => rw [hhook] at hsome; simp at hsome
    | some hook => exact ⟨by simp [map_proc_instantiate, hhook, hsz], by simp [map_proc_instantiate, hhook, hsz]⟩
  · intro l hroot hfresh
    unfold map_proc_register
    rw [if_neg hname]
    simp only [hroot]
    unfold map_proc_register_tree
    simp only [hfresh]
    rfl
  · rfl

/-- Witness for the amended C8 at concrete inputs: a failed tree creation is
an error result; a failed instance allocation is a crash. -/
theorem map_proc_alloc_failure_reporting_witness :
    map_proc_register { tree_ok := false, proc_ok := true, node_ok := true }
      { root := none, nextId := 0 } 1 [97] c8ev none none 0 =
      { ret := RegRet.err, st := { root := none, nextId := 0 } } ∧
    (map_proc_instantiate false true c8proc 5 9).crashed = true :=
  ⟨(map_proc_alloc_failure_reporting { root := none, nextId := 0 } 1 [97] c8ev none none 0
      c8proc 5 9 (by decide)).1 rfl true true,
   (map_proc_alloc_failure_reporting { root := none, nextId := 0 } 1 [97] c8ev none none 0
      c8proc 5 9 (by decide)).2.2.2.2⟩

lemma rbtree_finddata_map_key_preserving (l : List MapProc) (k : MapKey)
    (g : MapProc → MapProc) (hg : ∀ q, map_proc_key (g q) = map_proc_key q) :
    rbtree_finddata (l.map g) k = (rbtree_finddata l k).map g := by
  unfold rbtree_finddata
  have hpred : (fun q => decide (map_proc_cmp k (map_proc_key q) = 0)) ∘ g
      = fun q => decide (map_proc_cmp k (map_proc_key q) = 0) := by
    funext q
    simp [Function.comp, hg q]
  rw [List.find?_map, hpred]

/-- C6: re-registering under a name already present updates the owner,
evaluate, escape, instantiate and instance-size fields on the existing
descriptor in place: register succeeds, find afterwards returns the node with
the same identity, unchanged name and cached length, and the newly supplied
field values. -/
theorem map_proc_register_replace_in_place (alloc : AllocPlan) (st : RegState)
    (mi : ModInst) (name : List Nat) (ev : MapProcFunc) (esc : Option XlatEscape)
    (ins : Option MapProcInstantiateT) (sz : Nat) (p : MapProc)
    (hname : name ≠ []) (hfound : map_proc_find st name = some p) :
    (map_proc_register alloc st mi name ev esc ins sz).ret = RegRet.ok ∧
    map_proc_find (map_proc_register alloc st mi name ev esc ins sz).st name =
      some (map_proc_update mi ev esc ins sz p) ∧
    (map_proc_update mi ev esc ins sz p).id = p.id ∧
    (map_proc_update mi ev esc ins sz p).name = p.name ∧
    (map_proc_update mi ev esc ins sz p).length = p.length ∧
    (map_proc_update mi ev esc ins sz p).mod_inst = mi ∧
    (map_proc_update mi ev esc ins sz p).evaluate = ev ∧
    (map_proc_update mi ev esc ins sz p).escape = esc ∧
    (map_proc_update mi ev esc ins sz p).instantiate = ins ∧
    (map_proc_update mi ev esc ins sz p).inst_size = sz := by
  cases hroot : st.root with
  | none =>
    rw [map_proc_find] at hfound
    rw [hroot] at hfound
    exact absurd hfound (by simp)
  | some l =>
    have hfind : rbtree_finddata l (mkKey name) = some p := by
      rw [map_proc_find] at hfound
      rw [hroot] at hfound
      exact hfound
    have hreg : map_proc_register alloc st mi name ev esc ins sz =
        { ret := RegRet.ok,
          st := { root := some (l.map (fun q =>
                    if q.id = p.id then map_proc_update mi ev esc ins sz q else q)),
                  nextId := st.nextId } } := by
      unfold map_proc_register
      rw [if_neg hname]
      simp only [hroot]
      unfold map_proc_register_tree
      simp only [hfind]
    have hg : ∀ q : MapProc,
        map_proc_key (if q.id = p.id then map_proc_update mi ev esc ins sz q else q) =
        map_proc_key q := by
      intro q
      by_cases hq : q.id = p.id
      · simp [hq, map_proc_update, map_proc_key]
      · simp [hq]
    refine ⟨by rw [hreg], ?_, rfl, rfl, rfl, rfl, rfl, rfl, rfl, rfl⟩
    rw [hreg]
    show rbtree_finddata _ (mkKey name) = _
    rw [rbtree_finddata_map_key_preserving _ _ _ hg, hfind, Option.map_some']
    simp

def c6ev1 : MapProcFunc := fun _ _ _ _ _ => RlmRcode.ok

def c6ev2 : MapProcFunc := fun _ _ _ _ _ => RlmRcode.reject

def c6p : MapProc :=
  { id := 0, mod_inst := 1, name := [97], length := 1,
    evaluate := c6ev1, instantiate := none, escape := none, inst_size := 0 }

def c6st : RegState :=
  (map_proc_register { tree_ok := true, proc_ok := true, node_ok := true }
    { root := none, nextId := 0 } 1 [97] c6ev1 none none 0).st

/-- Witness for C6: register a descriptor, re-register the same name with new
fields; find returns the in-place updated node. -/
theorem map_proc_register_replace_in_place_witness :
    (map_proc_register { tree_ok := true, proc_ok := true, node_ok := true }
       c6st 2 [97] c6ev2 (some 7) none 3).ret = RegRet.ok ∧
    map_proc_find (map_proc_register { tree_ok := true, proc_ok := true, node_ok := true }
       c6st 2 [97] c6ev2 (some 7) none 3).st [97] =
      some (map_proc_update 2 c6ev2 (some 7) none 3 c6p) :=
  ⟨(map_proc_register_replace_in_place { tree_ok := true, proc_ok := true, node_ok := true }
      c6st 2 [97] c6ev2 (some 7) none 3 c6p (by decide) rfl).1,
   (map_proc_register_replace_in_place { tree_ok := true, proc_ok := true, node_ok := true }
      c6st 2 [97] c6ev2 (some 7) none 3 c6p (by decide) rfl).2.1⟩

/-- Registry invariant maintained by register: every stored descriptor's
cached length is the length of its stored name, and no two live descriptors
compare equal. -/
def registryWF (l : List MapProc) : Prop :=
  (∀ p ∈ l, p.name.length = p.length) ∧
  l.Pairwise (fun a b => map_proc_cmp (map_proc_key a) (map_proc_key b) ≠ 0)

instance (l : List MapProc) : Decidable (registryWF l) := by
  unfold registryWF
  infer_instance

lemma eraseP_eq_filter_of_at_most_one (q : MapProc → Bool) :
    ∀ l : List MapProc, l.Pairwise (fun a b => ¬(q a = true ∧ q b = true)) →
      l.eraseP q = l.filter (fun a => !q a)
  | [], _ => rfl
  | a :: l, h => by
    rcases List.pairwise_cons.mp h with ⟨ha, hl⟩
    by_cases hqa : q a = true
    · rw [List.eraseP_cons_of_pos hqa, List.filter_cons_of_neg (by simp [hqa])]
      have hrest : ∀ b ∈ l, (!q b) = true := by
        intro b hb
        have hnb : ¬(q a = true ∧ q b = true) := ha b hb
        simp only [hqa, true_and] at hnb
        simp [hnb]
      rw [List.filter_eq_self.mpr hrest]
    · rw [List.eraseP_cons_of_neg (by simp [hqa]), List.filter_cons_of_pos (by simp [hqa])]
      rw [eraseP_eq_filter_of_at_most_one q l hl]

lemma map_proc_cmp_matches_agree (k : MapKey) (hk : k.name.length = k.length)
    (a b : MapProc) (ha : a.name.length = a.length) (hb : b.name.length = b.length)
    (hka : map_proc_cmp k (map_proc_key a) = 0)
    (hkb : map_proc_cmp k (map_proc_key b) = 0) :
    map_proc_cmp (map_proc_key a) (map_proc_key b) = 0 := by
  have h1 : k = map_proc_key a := (map_proc_cmp_eq_zero_iff k (map_proc_key a) hk ha).mp hka
  have h2 : k = map_proc_key b := (map_proc_cmp_eq_zero_iff k (map_proc_key b) hk hb).mp hkb
  rw [← h1, ← h2]
  exact (map_proc_cmp_eq_zero_iff k k hk hk).mpr rfl

/-- C9: the automatic unregister destructor re-derives a lookup key from the
descriptor's own name, always returns 0, removes exactly the matching node
(all non-matching entries survive, unchanged and in order), and when no
matching node remains it is a no-op — so a second run for the same descriptor
changes nothing. -/
theorem map_proc_unregister_idempotent (l : List MapProc) (proc : MapProc)
    (hwf : registryWF l) :
    (_map_proc_unregister l proc).2 = 0 ∧
    (_map_proc_unregister l proc).1 =
      l.filter (fun q => !decide (map_proc_cmp (mkKey proc.name) (map_proc_key q) = 0)) ∧
    _map_proc_unregister (_map_proc_unregister l proc).1 proc =
      ((_map_proc_unregister l proc).1, 0) := by
  obtain ⟨hlen, hpw⟩ := hwf
  have hk : (mkKey proc.name).name.length = (mkKey proc.name).length := rfl
  have hfilter_clean : ∀ m : List MapProc,
      (∀ q ∈ m, decide (map_proc_cmp (mkKey proc.name) (map_proc_key q) = 0) = false) →
      _map_proc_unregister m proc = (m, 0) := by
    intro m hm
    have hnone : rbtree_finddata m (mkKey proc.name) = none :=
      List.find?_eq_none.mpr (by intro q hq; simp [hm q hq])
    unfold _map_proc_unregister
    rw [hnone]
  cases hfind : rbtree_finddata l (mkKey proc.name) with
  | none =>
    have hall : ∀ q ∈ l, decide (map_proc_cmp (mkKey proc.name) (map_proc_key q) = 0) = false := by
      intro q hq
      simpa using List.find?_eq_none.mp hfind q hq
    have h1 : _map_proc_unregister l proc = (l, 0) := by
      unfold _map_proc_unregister
      rw [hfind]
    refine ⟨by rw [h1], ?_, ?_⟩
    · rw [h1]
      have : ∀ q ∈ l, (!decide (map_proc_cmp (mkKey proc.name) (map_proc_key q) = 0)) = true := by
        intro q hq
        simp [hall q hq]
      rw [List.filter_eq_self.mpr this]
    · rw [h1]
      exact hfilter_clean l hall
  | some found =>
    have hmem : found ∈ l := List.mem_of_find?_eq_some hfind
    have hmatch : map_proc_cmp (mkKey proc.name) (map_proc_key found) = 0 := by
      simpa using List.find?_some hfind
    have hkeq : mkKey proc.name = map_proc_key found :=
      (map_proc_cmp_eq_zero_iff (mkKey proc.name) (map_proc_key found) hk
        (hlen found hmem)).mp hmatch
    have h1 : _map_proc_unregister l proc = (rbtree_deletebydata l found, 0) := by
      unfold _map_proc_unregister
      rw [hfind]
    have hdel : rbtree_deletebydata l found =
        l.filter (fun q => !decide (map_proc_cmp (mkKey proc.name) (map_proc_key q) = 0)) := by
      unfold rbtree_deletebydata
      rw [← hkeq]
      apply eraseP_eq_filter_of_at_most_one
      refine hpw.imp_of_mem ?_
      intro a b hha hhb hab
      rintro ⟨hqa, hqb⟩
      exact hab (map_proc_cmp_matches_agree (mkKey proc.name) hk a b
        (hlen a hha) (hlen b hhb) (by simpa using hqa) (by simpa using hqb))
    refine ⟨by rw [h1], by rw [h1, hdel], ?_⟩
    rw [h1]
    simp only
    rw [hdel]
    exact hfilter_clean _ (by
      intro q hq
      have := (List.mem_filter.mp hq).2
      simpa using this)

def c9ev : MapProcFunc := fun _ _ _ _ _ => RlmRcode.noop

def c9pA : MapProc :=
  { id := 0, mod_inst := 1, name := [97], length := 1,
    evaluate := c9ev, instantiate := none, escape := none, inst_size := 0 }

def c9pB : MapProc :=
  { id := 1, mod_inst := 2, name := [98, 99], length := 2,
    evaluate := c9ev, instantiate := none, escape := none, inst_size := 0 }

/-- Witness for C9: a two-entry registry; unregistering the first removes
exactly it, and a second unregister run is a no-op. -/
theorem map_proc_unregister_idempotent_witness :
    (_map_proc_unregister [c9pA, c9pB] c9pA).1 =
      [c9pA, c9pB].filter
        (fun q => !decide (map_proc_cmp (mkKey c9pA.name) (map_proc_key q) = 0)) ∧
    _map_proc_unregister (_map_proc_unregister [c9pA, c9pB] c9pA).1 c9pA =
      ((_map_proc_unregister [c9pA, c9pB] c9pA).1, 0) :=
  ⟨(map_proc_unregister_idempotent [c9pA, c9pB] c9pA (by decide)).2.1,
   (map_proc_unregister_idempotent [c9pA, c9pB] c9pA (by decide)).2.2⟩

end MapProcSpec
